import Mathlib

/-!
Shallow embedding of the quiz and flashcard minigame modules of the
Ai-Study-Assistant repository
(`src/ai_study_assistant/minigames/quiz_game.py` and
`src/ai_study_assistant/minigames/flashcards.py`).

Modelling conventions:
* The per-file JSON storage directory is modelled as an association list
  keyed by identifier; `_save_quiz` / `_save_set` overwrite the file for
  the record's id, modelled by prepending (lookup finds the newest entry).
* `datetime.now().isoformat()` is modelled by a `now : Nat` parameter.
* `uuid.uuid4()` is modelled by a fresh-identifier parameter.
* `random.sample` / `random.shuffle` in `get_random_questions` are modelled
  by a selection oracle `select : List Question → List Question`.
* Python `int` is `Int`; the float expression
  `round((correct_count / len(questions)) * 100)` is modelled by exact
  rational arithmetic: `pyRound num den` rounds the exact value of
  `num / den` half-to-even, as Python's `round` does.
* Python list indexing `xs[i]` with a possibly negative `i` is `pyIdx`:
  a negative index counts from the end; an unresolvable index raises
  `IndexError`, modelled by an `Option` result of the whole operation.
-/

namespace StudyAssistant

/-- Python `round` applied to the exact value of the fraction `num / den`
(`den > 0`): round to nearest, ties to even. `f` is the floor of the
fraction and `r2` is twice the fractional part scaled by `den`, so
comparing `r2` with `den` compares the fractional part with `1/2`. -/
def pyRound (num : Int) (den : Nat) : Int :=
  let f := Int.fdiv num den
  let r2 := 2 * (num - f * den)
  if r2 < (den : Int) then f
  else if (den : Int) < r2 then f + 1
  else if f % 2 = 0 then f else f + 1

/-- Python list index resolution: `xs[i]` for `i ≥ 0` is position `i` when
`i < n`; for `i < 0` it is position `n + i` when `0 ≤ n + i`; anything else
raises `IndexError` (modelled as `none`). -/
def pyIdx (n : Nat) (i : Int) : Option Nat :=
  if 0 ≤ i then
    if i < (n : Int) then some i.toNat else none
  else
    if 0 ≤ i + (n : Int) then some (i + (n : Int)).toNat else none

/-- A quiz question as stored in a quiz file (`add_question`, quiz_game.py). -/
structure Question where
  id : String
  question_text : String
  answers : List String
  correct_answer_index : Int
  explanation : String
deriving DecidableEq, Repr, Inhabited

/-- A quiz record (`create_quiz`, quiz_game.py). -/
structure Quiz where
  id : String
  title : String
  description : String
  category : String
  created_at : Nat
  updated_at : Nat
  questions : List Question
deriving DecidableEq, Repr, Inhabited

/-- The quiz storage directory: one record per identifier. -/
def QuizStore := List (String × Quiz)

/-- `get_quiz`: load the record for `quiz_id`, `none` when absent
(deserialization errors also collapse to `None` in the source). -/
def getQuiz (store : QuizStore) (quiz_id : String) : Option Quiz :=
  List.lookup quiz_id store

/-- `_save_quiz`: whole-file overwrite of the record keyed by `quiz.id`. -/
def saveQuiz (store : QuizStore) (quiz : Quiz) : QuizStore :=
  (quiz.id, quiz) :: store

/-- `create_quiz`: fresh identifier, both timestamps now, empty question
list, persisted immediately. -/
def create_quiz (store : QuizStore) (quiz_id : String) (now : Nat)
    (title : String) (description : String) (category : String) :
    QuizStore × Quiz :=
  let quiz : Quiz :=
    { id := quiz_id, title := title, description := description,
      category := category, created_at := now, updated_at := now,
      questions := [] }
  (saveQuiz store quiz, quiz)

/-- `add_question`: `None` when the quiz does not resolve; otherwise append
the new question (with exactly the given `correct_answer_index`, no
validation), bump `updated_at`, persist. -/
def add_question (store : QuizStore) (question_id : String) (now : Nat)
    (quiz_id : String) (question_text : String) (answers : List String)
    (correct_answer_index : Int) (explanation : String) :
    QuizStore × Option Quiz :=
  match getQuiz store quiz_id with
  | none => (store, none)
  | some quiz =>
    let quiz' : Quiz :=
      { quiz with
        questions := quiz.questions ++
          [{ id := question_id, question_text := question_text,
             answers := answers,
             correct_answer_index := correct_answer_index,
             explanation := explanation }],
        updated_at := now }
    (saveQuiz store quiz', some quiz')

/-- A question inside a quiz session: the quiz question's fields (the
source keeps `correct_answer_index` in the copied dict) plus the two
session fields set by the redaction loop in `create_quiz_session`. -/
structure SessionQuestion where
  id : String
  question_text : String
  answers : List String
  correct_answer_index : Int
  explanation : String
  user_answer_index : Option Int
  is_correct : Option Bool
deriving DecidableEq, Repr, Inhabited

/-- A quiz session (`create_quiz_session`, quiz_game.py). -/
structure QuizSession where
  id : String
  quiz_id : String
  user_id : Option String
  title : String
  started_at : Nat
  completed_at : Option Nat
  questions : List SessionQuestion
  current_question_index : Int
  answers : List Int
  score : Option Int
deriving DecidableEq, Repr, Inhabited

/-- `get_random_questions`: `[]` when the quiz is absent or has no
questions; otherwise `random.sample`/`random.shuffle`, modelled by the
selection oracle `select`. -/
def get_random_questions (store : QuizStore)
    (select : List Question → List Question) (quiz_id : String) :
    List Question :=
  match getQuiz store quiz_id with
  | none => []
  | some quiz =>
    if quiz.questions.isEmpty then [] else select quiz.questions

/-- The per-question step of the loop at the end of `create_quiz_session`:
it sets `user_answer_index` and `is_correct` to `None` on the question dict
(note: `correct_answer_index` is carried over unchanged). -/
def toSessionQuestion (q : Question) : SessionQuestion :=
  { id := q.id, question_text := q.question_text, answers := q.answers,
    correct_answer_index := q.correct_answer_index,
    explanation := q.explanation,
    user_answer_index := none, is_correct := none }

/-- `create_quiz_session`: resolve the quiz, pick questions, fail on an
empty pick, then build the session and run the nulling loop over its
questions. -/
def create_quiz_session (store : QuizStore)
    (select : List Question → List Question) (session_id : String)
    (now : Nat) (quiz_id : String) (user_id : Option String) :
    Option QuizSession :=
  match getQuiz store quiz_id with
  | none => none
  | some quiz =>
    let questions := get_random_questions store select quiz_id
    if questions.isEmpty then none
    else
      some
        { id := session_id, quiz_id := quiz_id, user_id := user_id,
          title := quiz.title, started_at := now, completed_at := none,
          questions := questions.map toSessionQuestion,
          current_question_index := 0, answers := [], score := none }

/-- `sum(1 for q in session["questions"] if q.get("is_correct", False))`:
`None` and `False` are falsy, so only `True` entries count. -/
def correctCount (qs : List SessionQuestion) : Nat :=
  (qs.filter (fun q => q.is_correct == some true)).length

/-- `answer_question`: silent no-op for `question_index >= len(questions)`;
otherwise resolve the list slot (Python negative indexing; `IndexError`
is `none`), re-resolve the quiz and the original question by id (returning
the session unchanged when either fails), record the answer, grade it
against the original `correct_answer_index`, copy the explanation, advance
`current_question_index` to `question_index + 1`, and on reaching the end
set `completed_at` and the rounded percentage score. -/
def answer_question (store : QuizStore) (now : Nat) (session : QuizSession)
    (question_index : Int) (answer_index : Int) : Option QuizSession :=
  if (session.questions.length : Int) ≤ question_index then some session
  else
    match pyIdx session.questions.length question_index with
    | none => none
    | some j =>
      let question := session.questions.getD j default
      match getQuiz store session.quiz_id with
      | none => some session
      | some quiz =>
        match quiz.questions.find? (fun q => q.id == question.id) with
        | none => some session
        | some original_question =>
          let q' : SessionQuestion :=
            { question with
              user_answer_index := some answer_index,
              is_correct :=
                some (answer_index == original_question.correct_answer_index),
              explanation := original_question.explanation }
          let s1 : QuizSession :=
            { session with
              questions := session.questions.set j q',
              current_question_index := question_index + 1 }
          if (s1.questions.length : Int) ≤ question_index + 1 then
            some
              { s1 with
                completed_at := some now,
                score :=
                  some (pyRound (100 * (correctCount s1.questions : Int))
                    s1.questions.length) }
          else some s1

/-- A flashcard (`add_card`, flashcards.py). -/
structure Card where
  id : String
  front : String
  back : String
  tags : List String
  created_at : Nat
  last_reviewed : Option Nat
  review_count : Int
  difficulty : Int
deriving DecidableEq, Repr, Inhabited

/-- A flashcard set (`create_set`, flashcards.py). -/
structure FlashcardSet where
  id : String
  title : String
  description : String
  created_at : Nat
  updated_at : Nat
  cards : List Card
deriving DecidableEq, Repr, Inhabited

/-- The flashcard storage directory. -/
def FlashStore := List (String × FlashcardSet)

/-- `get_set`: load the record for `set_id`, `none` when absent. -/
def getSet (store : FlashStore) (set_id : String) : Option FlashcardSet :=
  List.lookup set_id store

/-- `_save_set`: whole-file overwrite of the record keyed by the set id. -/
def saveSet (store : FlashStore) (s : FlashcardSet) : FlashStore :=
  (s.id, s) :: store

/-- The sort key of `get_cards_to_review`:
`(0 if card["last_reviewed"] is None else 1, card["difficulty"],
-card["review_count"])`. -/
def cardKey (c : Card) : Int × Int × Int :=
  ((if c.last_reviewed = none then 0 else 1), c.difficulty, -c.review_count)

/-- Lexicographic order on the three-component sort key (Python tuple
comparison). -/
def keyLE (a b : Int × Int × Int) : Bool :=
  decide (a.1 < b.1 ∨ (a.1 = b.1 ∧
    (a.2.1 < b.2.1 ∨ (a.2.1 = b.2.1 ∧ a.2.2 ≤ b.2.2))))

/-- Stable insertion into a key-sorted list: the new element goes after
every element whose key is ≤ its own, preserving the original relative
order of key-equal elements (Python `sorted` is stable). -/
def stableInsert (le : Card → Card → Bool) (x : Card) :
    List Card → List Card
  | [] => [x]
  | y :: ys => if le y x then y :: stableInsert le x ys else x :: y :: ys

/-- Stable ascending sort, the model of Python's `sorted(cards, key=...)`. -/
def stableSort (le : Card → Card → Bool) (l : List Card) : List Card :=
  l.foldl (fun acc x => stableInsert le x acc) []

/-- `get_cards_to_review`: `[]` when the set is absent or has no cards;
otherwise the cards stably sorted ascending by `cardKey`, truncated to
`count`. -/
def get_cards_to_review (store : FlashStore) (set_id : String)
    (count : Nat) : List Card :=
  match getSet store set_id with
  | none => []
  | some s =>
    if s.cards.isEmpty then []
    else (stableSort (fun a b => keyLE (cardKey a) (cardKey b)) s.cards).take
      count

/-- The body of the `for card in flashcard_set["cards"]` loop of
`record_review`: update the first card whose id matches, then `break`. -/
def updateFirstCard (card_id : String) (f : Card → Card) :
    List Card → List Card
  | [] => []
  | c :: cs =>
    if c.id == card_id then f c :: cs else c :: updateFirstCard card_id f cs

/-- `record_review`: `None` when the set does not resolve; otherwise set
the first matching card's `last_reviewed` to now, increment its
`review_count` by 1, clamp the input difficulty into [0,3], bump the set's
`updated_at`, persist. -/
def record_review (store : FlashStore) (now : Nat) (set_id : String)
    (card_id : String) (difficulty : Int) :
    FlashStore × Option FlashcardSet :=
  match getSet store set_id with
  | none => (store, none)
  | some s =>
    let s' : FlashcardSet :=
      { s with
        cards := updateFirstCard card_id
          (fun c =>
            { c with
              last_reviewed := some now,
              review_count := c.review_count + 1,
              difficulty := max 0 (min 3 difficulty) }) s.cards,
        updated_at := now }
    (saveSet store s', some s')

/-! ### Helper lemmas -/

theorem pyIdx_of_nonneg {n : Nat} {i : Int} (h0 : 0 ≤ i) (hlt : i < (n : Int)) :
    pyIdx n i = some i.toNat := by
  unfold pyIdx
  rw [if_pos h0, if_pos hlt]

theorem getD_set_self {α : Type} (l : List α) (j : Nat) (x d : α)
    (h : j < l.length) : (l.set j x).getD j d = x := by
  simp [List.getD, List.getElem?_set_self', List.getElem?_eq_getElem, h]

/-! ### Concrete example data -/

/-- A quiz question with three answers; the correct one is at index 1. -/
def exQuestion : Question :=
  { id := "q1", question_text := "Q?", answers := ["a", "b", "c"],
    correct_answer_index := 1, explanation := "because" }

def exQuiz : Quiz :=
  { id := "quiz1", title := "T", description := "D", category := "cat",
    created_at := 0, updated_at := 0, questions := [exQuestion] }

def exStore : QuizStore := [("quiz1", exQuiz)]

/-- The session `create_quiz_session` returns on `exStore` when the random
shuffle happens to keep the original order. -/
def exSession : QuizSession :=
  (create_quiz_session exStore id "s1" 5 "quiz1" none).getD default

/-- Cards A (never reviewed, difficulty 1), B (reviewed, difficulty 3) and
C (reviewed, difficulty 0) from the spec's review-selector example. -/
def exCardA : Card :=
  { id := "A", front := "fa", back := "ba", tags := [], created_at := 0,
    last_reviewed := none, review_count := 0, difficulty := 1 }

def exCardB : Card :=
  { id := "B", front := "fb", back := "bb", tags := [], created_at := 0,
    last_reviewed := some 1, review_count := 1, difficulty := 3 }

def exCardC : Card :=
  { id := "C", front := "fc", back := "bc", tags := [], created_at := 0,
    last_reviewed := some 1, review_count := 1, difficulty := 0 }

def exFSet : FlashcardSet :=
  { id := "set1", title := "t", description := "", created_at := 0,
    updated_at := 0, cards := [exCardA, exCardB, exCardC] }

def exFStore : FlashStore := [("set1", exFSet)]

/-! ### Claim theorems -/

/-- C7: round-trip — for every title, description and category, `get_quiz`
applied to the identifier of the quiz returned by `create_quiz` returns a
quiz with identical title, description and category and an empty question
list. -/
theorem C7_create_get_roundtrip (store : QuizStore) (quiz_id : String)
    (now : Nat) (title description category : String) :
    getQuiz (create_quiz store quiz_id now title description category).1
        (create_quiz store quiz_id now title description category).2.id =
      some (create_quiz store quiz_id now title description category).2 ∧
    (create_quiz store quiz_id now title description category).2.title =
      title ∧
    (create_quiz store quiz_id now title description category).2.description =
      description ∧
    (create_quiz store quiz_id now title description category).2.category =
      category ∧
    (create_quiz store quiz_id now title description category).2.questions =
      [] := by
  refine ⟨?_, rfl, rfl, rfl, rfl⟩
  simp [create_quiz, getQuiz, saveQuiz, List.lookup]

/-- C3 counterexample: `question_index = -1` lies outside `[0, 1)` for the
one-question session `exSession`, yet `answer_question` does not return the
session unchanged — Python's negative indexing makes it record an answer
on the last question. -/
theorem C3_negative_index_changes_session :
    ¬ (0 ≤ (-1 : Int) ∧ (-1 : Int) < (exSession.questions.length : Int)) ∧
    answer_question exStore 7 exSession (-1) 0 ≠ some exSession := by
  refine ⟨by decide, by decide⟩

/-- C3 (amended): for every `question_index` greater than or equal to the
number of session questions, `answer_question` returns the session
unchanged — a silent no-op, not a failure. (Negative indices are not
tolerated: they index from the end of the question list or raise.) -/
theorem C3_out_of_range_noop (store : QuizStore) (now : Nat)
    (session : QuizSession) (question_index answer_index : Int)
    (h : (session.questions.length : Int) ≤ question_index) :
    answer_question store now session question_index answer_index =
      some session := by
  unfold answer_question
  rw [if_pos h]

/-- C3 witness: the no-op at the concrete index 5 on the one-question
session. -/
theorem C3_out_of_range_noop_witness :
    answer_question exStore 7 exSession 5 0 = some exSession :=
  C3_out_of_range_noop exStore 7 exSession 5 0 (by decide)

/-- C4 counterexample: `add_question` performs no range validation —
adding a question with `correct_answer_index = 5` and only two answers
succeeds and stores a question violating the invariant
`correct_answer_index ∈ [0, len(answers))`. -/
theorem C4_invalid_index_stored :
    ((add_question exStore "q2" 6 "quiz1" "Bad?" ["a", "b"] 5 "").2).isSome =
      true ∧
    ∃ q ∈ (((add_question exStore "q2" 6 "quiz1" "Bad?" ["a", "b"] 5
        "").2).getD default).questions,
      ¬ (0 ≤ q.correct_answer_index ∧
        q.correct_answer_index < (q.answers.length : Int)) := by
  refine ⟨by decide, by decide⟩

/-- C4 (amended): every `add_question` call that resolves its quiz appends
a `Question` whose `correct_answer_index` equals the supplied argument
verbatim (no validation); the stored question satisfies the invariant
`correct_answer_index ∈ [0, len(answers))` whenever the supplied argument
does. -/
theorem C4_append_valid_when_arg_valid (store : QuizStore)
    (question_id : String) (now : Nat) (quiz_id question_text : String)
    (answers : List String) (cai : Int) (explanation : String) (quiz : Quiz)
    (h : getQuiz store quiz_id = some quiz)
    (h0 : 0 ≤ cai) (h1 : cai < (answers.length : Int)) :
    (add_question store question_id now quiz_id question_text answers cai
        explanation).2.map Quiz.questions =
      some (quiz.questions ++
        [Question.mk question_id question_text answers cai explanation]) ∧
    (0 ≤ (Question.mk question_id question_text answers cai
        explanation).correct_answer_index ∧
      (Question.mk question_id question_text answers cai
          explanation).correct_answer_index <
        ((Question.mk question_id question_text answers cai
          explanation).answers.length : Int)) := by
  refine ⟨?_, h0, h1⟩
  unfold add_question
  rw [h]
  rfl

/-- C4 witness: a concrete in-range `add_question` call appending a valid
question. -/
theorem C4_append_valid_witness :
    (add_question exStore "q3" 6 "quiz1" "Ok?" ["a", "b"] 1
        "").2.map Quiz.questions =
      some (exQuiz.questions ++
        [Question.mk "q3" "Ok?" ["a", "b"] 1 ""]) ∧
    (0 ≤ (Question.mk "q3" "Ok?" ["a", "b"] 1 "").correct_answer_index ∧
      (Question.mk "q3" "Ok?" ["a", "b"] 1 "").correct_answer_index <
        ((Question.mk "q3" "Ok?" ["a", "b"] 1 "").answers.length : Int)) :=
  C4_append_valid_when_arg_valid exStore "q3" 6 "quiz1" "Ok?" ["a", "b"] 1
    "" exQuiz (by decide) (by decide) (by decide)

/-- C1: contrary to the `Remove correct answer indices to avoid cheating`
comment in `create_quiz_session`, the session it returns still carries the
true `correct_answer_index` of every question — here the session built
from `exStore` exposes index 1, the correct answer of `exQuestion`. -/
theorem C1_session_exposes_correct_answer :
    (create_quiz_session exStore id "s1" 5 "quiz1" none).map
        (fun s => s.questions.map SessionQuestion.correct_answer_index) =
      some [exQuestion.correct_answer_index] ∧
    exQuestion.correct_answer_index = 1 := by
  refine ⟨by decide, rfl⟩

/-- Reduction of `answer_question` on the path where the index is
non-negative and in range, the quiz resolves, and the original question is
found: the call succeeds, the slot is overwritten with the graded answer,
progress advances to `question_index + 1`, no other session field used by
a later call changes, and on reaching the end the completion fields are
set. -/
theorem answer_question_fields (store : QuizStore) (now : Nat)
    (session : QuizSession) (qi ai : Int) (quiz : Quiz) (oq : Question)
    (h0 : 0 ≤ qi) (hlt : qi < (session.questions.length : Int))
    (hquiz : getQuiz store session.quiz_id = some quiz)
    (hfind : quiz.questions.find?
      (fun q => q.id == (session.questions.getD qi.toNat default).id) =
        some oq) :
    ∃ s', answer_question store now session qi ai = some s' ∧
      s'.questions = session.questions.set qi.toNat
        { session.questions.getD qi.toNat default with
          user_answer_index := some ai,
          is_correct := some (ai == oq.correct_answer_index),
          explanation := oq.explanation } ∧
      s'.current_question_index = qi + 1 ∧
      s'.quiz_id = session.quiz_id ∧
      ((session.questions.length : Int) ≤ qi + 1 →
        s'.completed_at = some now ∧
        s'.score = some (pyRound (100 * (correctCount s'.questions : Int))
          session.questions.length)) := by
  unfold answer_question
  rw [if_neg (by omega), pyIdx_of_nonneg h0 hlt]
  simp only [hquiz, hfind, List.length_set]
  by_cases hc : (session.questions.length : Int) ≤ qi + 1
  · rw [if_pos hc]
    exact ⟨_, rfl, rfl, rfl, rfl, fun _ => ⟨rfl, rfl⟩⟩
  · rw [if_neg hc]
    exact ⟨_, rfl, rfl, rfl, rfl, fun hcc => absurd hcc hc⟩

/-- A four-question quiz whose first answer is always correct at index 0,
with a matching session in which three questions are already answered
(two of them correctly) and the last is still open. -/
def exQuiz4 : Quiz :=
  { id := "quiz4", title := "T4", description := "", category := "general",
    created_at := 0, updated_at := 0,
    questions :=
      [Question.mk "a0" "A0?" ["x", "y"] 0 "",
       Question.mk "a1" "A1?" ["x", "y"] 0 "",
       Question.mk "a2" "A2?" ["x", "y"] 0 "",
       Question.mk "a3" "A3?" ["x", "y"] 0 ""] }

def exStore4 : QuizStore := [("quiz4", exQuiz4)]

def exSess4 : QuizSession :=
  { id := "s4", quiz_id := "quiz4", user_id := none, title := "T4",
    started_at := 0, completed_at := none,
    questions :=
      [SessionQuestion.mk "a0" "A0?" ["x", "y"] 0 "" (some 0) (some true),
       SessionQuestion.mk "a1" "A1?" ["x", "y"] 0 "" (some 0) (some true),
       SessionQuestion.mk "a2" "A2?" ["x", "y"] 0 "" (some 1) (some false),
       SessionQuestion.mk "a3" "A3?" ["x", "y"] 0 "" none none],
    current_question_index := 3, answers := [], score := none }

/-- The session after the final (correct) answer on `exSess4`:
4 questions, 3 correct. -/
def exAfter4 : QuizSession :=
  (answer_question exStore4 9 exSess4 3 0).getD default

/-- A three-question quiz with a session in which two questions are
answered (one correctly) and the last is still open. -/
def exQuiz3 : Quiz :=
  { id := "quiz3", title := "T3", description := "", category := "general",
    created_at := 0, updated_at := 0,
    questions :=
      [Question.mk "b0" "B0?" ["x", "y"] 0 "",
       Question.mk "b1" "B1?" ["x", "y"] 0 "",
       Question.mk "b2" "B2?" ["x", "y"] 0 ""] }

def exStore3 : QuizStore := [("quiz3", exQuiz3)]

def exSess3 : QuizSession :=
  { id := "s3", quiz_id := "quiz3", user_id := none, title := "T3",
    started_at := 0, completed_at := none,
    questions :=
      [SessionQuestion.mk "b0" "B0?" ["x", "y"] 0 "" (some 0) (some true),
       SessionQuestion.mk "b1" "B1?" ["x", "y"] 0 "" (some 1) (some false),
       SessionQuestion.mk "b2" "B2?" ["x", "y"] 0 "" none none],
    current_question_index := 2, answers := [], score := none }

/-- The session after the final (wrong) answer on `exSess3`:
3 questions, 1 correct. -/
def exAfter3 : QuizSession :=
  (answer_question exStore3 9 exSess3 2 1).getD default

/-- C5: when `answer_question` advances past the last question it sets
`completed_at` to now, and the final score is `round(100 * C / N)` with
`C` the number of correctly answered questions among the `N` session
questions. -/
theorem C5_score_law (store : QuizStore) (now : Nat) (session : QuizSession)
    (qi ai : Int) (quiz : Quiz) (oq : Question)
    (h0 : 0 ≤ qi) (h1 : qi + 1 = (session.questions.length : Int))
    (hquiz : getQuiz store session.quiz_id = some quiz)
    (hfind : quiz.questions.find?
      (fun q => q.id == (session.questions.getD qi.toNat default).id) =
        some oq) :
    (answer_question store now session qi ai).isSome = true ∧
    ∀ s', answer_question store now session qi ai = some s' →
      s'.completed_at = some now ∧
      s'.score = some (pyRound (100 * (correctCount s'.questions : Int))
        session.questions.length) := by
  obtain ⟨t, he, -, -, -, hcomp⟩ :=
    answer_question_fields store now session qi ai quiz oq h0 (by omega)
      hquiz hfind
  refine ⟨by rw [he]; rfl, fun s' hs' => ?_⟩
  rw [he] at hs'
  injection hs' with hs''
  subst hs''
  exact hcomp (by omega)

/-- C5 witness: N=4 with C=3 yields score 75; N=3 with C=1 yields
score 33. -/
theorem C5_score_law_witness :
    (answer_question exStore4 9 exSess4 3 0).isSome = true ∧
    exAfter4.completed_at = some 9 ∧ exAfter4.score = some 75 ∧
    exAfter3.completed_at = some 9 ∧ exAfter3.score = some 33 := by
  have h4 := C5_score_law exStore4 9 exSess4 3 0 exQuiz4
    (Question.mk "a3" "A3?" ["x", "y"] 0 "") (by decide) (by decide)
    (by decide) (by decide)
  have h3 := C5_score_law exStore3 9 exSess3 2 1 exQuiz3
    (Question.mk "b2" "B2?" ["x", "y"] 0 "") (by decide) (by decide)
    (by decide) (by decide)
  refine ⟨h4.1, (h4.2 exAfter4 (by decide)).1,
    ((h4.2 exAfter4 (by decide)).2).trans (by decide),
    (h3.2 exAfter3 (by decide)).1,
    ((h3.2 exAfter3 (by decide)).2).trans (by decide)⟩

/-- C6: answering the same in-range `question_index` twice leaves only the
second call's `user_answer_index` and correctness in the session question,
and `current_question_index` equals `question_index + 1` after the second
call. -/
theorem C6_second_answer_overwrites (store : QuizStore) (now now' : Nat)
    (session : QuizSession) (qi ai1 ai2 : Int) (quiz : Quiz) (oq : Question)
    (s1 s2 : QuizSession)
    (h0 : 0 ≤ qi) (hlt : qi < (session.questions.length : Int))
    (hquiz : getQuiz store session.quiz_id = some quiz)
    (hfind : quiz.questions.find?
      (fun q => q.id == (session.questions.getD qi.toNat default).id) =
        some oq)
    (h1 : answer_question store now session qi ai1 = some s1)
    (h2 : answer_question store now' s1 qi ai2 = some s2) :
    (s2.questions.getD qi.toNat default).user_answer_index = some ai2 ∧
    (s2.questions.getD qi.toNat default).is_correct =
      some (ai2 == oq.correct_answer_index) ∧
    s2.current_question_index = qi + 1 := by
  have hj : qi.toNat < session.questions.length := by omega
  obtain ⟨t1, he1, hq1, -, hz1, -⟩ :=
    answer_question_fields store now session qi ai1 quiz oq h0 hlt hquiz hfind
  rw [he1] at h1
  injection h1 with h1'
  subst h1'
  have hlen1 : t1.questions.length = session.questions.length := by
    rw [hq1, List.length_set]
  have hlt1 : qi < (t1.questions.length : Int) := by rw [hlen1]; exact hlt
  have hgd1 : t1.questions.getD qi.toNat default =
      { session.questions.getD qi.toNat default with
        user_answer_index := some ai1,
        is_correct := some (ai1 == oq.correct_answer_index),
        explanation := oq.explanation } := by
    rw [hq1]
    exact getD_set_self _ _ _ _ hj
  have hquiz1 : getQuiz store t1.quiz_id = some quiz := by
    rw [hz1]
    exact hquiz
  have hfind1 : quiz.questions.find?
      (fun q => q.id == (t1.questions.getD qi.toNat default).id) =
        some oq := by
    rw [hgd1]
    exact hfind
  obtain ⟨t2, he2, hq2, hc2, -, -⟩ :=
    answer_question_fields store now' t1 qi ai2 quiz oq h0 hlt1 hquiz1 hfind1
  rw [he2] at h2
  injection h2 with h2'
  subst h2'
  have hj2 : qi.toNat < t1.questions.length := by rw [hlen1]; exact hj
  have hgd2 : t2.questions.getD qi.toNat default =
      { t1.questions.getD qi.toNat default with
        user_answer_index := some ai2,
        is_correct := some (ai2 == oq.correct_answer_index),
        explanation := oq.explanation } := by
    rw [hq2]
    exact getD_set_self _ _ _ _ hj2
  refine ⟨?_, ?_, hc2⟩
  · rw [hgd2]
  · rw [hgd2]

/-- The one-question session `exSession` after answering question 0 twice:
first with answer 0 (wrong), then with answer 1 (correct). -/
def exTwice1 : QuizSession :=
  (answer_question exStore 7 exSession 0 0).getD default

def exTwice2 : QuizSession :=
  (answer_question exStore 8 exTwice1 0 1).getD default

/-- C6 witness: after the two calls only the second answer (index 1,
correct) is reflected, and progress sits at 1. -/
theorem C6_second_answer_overwrites_witness :
    (exTwice2.questions.getD 0 default).user_answer_index = some 1 ∧
    (exTwice2.questions.getD 0 default).is_correct = some true ∧
    exTwice2.current_question_index = 1 := by
  have h := C6_second_answer_overwrites exStore 7 8 exSession 0 0 1 exQuiz
    exQuestion exTwice1 exTwice2 (by decide) (by decide) (by decide)
    (by decide) (by decide) (by decide)
  exact ⟨h.1, h.2.1.trans (by decide), h.2.2⟩

/-- C10: for an in-range non-negative `question_index`, if the session's
quiz identifier does not resolve, or the resolved quiz has no question
with the session question's identifier, `answer_question` returns the
session with no field modified. -/
theorem C10_unresolved_bank_noop (store : QuizStore) (now : Nat)
    (session : QuizSession) (qi ai : Int)
    (h0 : 0 ≤ qi) (hlt : qi < (session.questions.length : Int))
    (h : ∀ quiz, getQuiz store session.quiz_id = some quiz →
      quiz.questions.find?
        (fun q => q.id == (session.questions.getD qi.toNat default).id) =
          none) :
    answer_question store now session qi ai = some session := by
  unfold answer_question
  rw [if_neg (by omega), pyIdx_of_nonneg h0 hlt]
  cases hq : getQuiz store session.quiz_id with
  | none => simp [hq]
  | some quiz => simp only [hq, h quiz hq]

/-- C10 witness: on an empty store the quiz cannot resolve, and the call
returns the session unchanged. -/
theorem C10_unresolved_bank_noop_witness :
    answer_question ([] : QuizStore) 7 exSession 0 0 = some exSession :=
  C10_unresolved_bank_noop [] 7 exSession 0 0 (by decide) (by decide)
    (fun _ hq => Option.noConfusion hq)

/-- C8: every question of a session freshly returned by
`create_quiz_session` has `user_answer_index = none` and
`is_correct = none`. -/
theorem C8_fresh_session_nulls (store : QuizStore)
    (select : List Question → List Question) (session_id : String)
    (now : Nat) (quiz_id : String) (user_id : Option String)
    (s : QuizSession)
    (h : create_quiz_session store select session_id now quiz_id user_id =
      some s) :
    ∀ q ∈ s.questions, q.user_answer_index = none ∧ q.is_correct = none := by
  unfold create_quiz_session at h
  split at h
  · exact Option.noConfusion h
  · dsimp only at h
    split at h
    · exact Option.noConfusion h
    · injection h with h'
      subst h'
      intro q hmem
      simp only [List.mem_map] at hmem
      obtain ⟨a, -, rfl⟩ := hmem
      exact ⟨rfl, rfl⟩

/-- C8 witness: the single question of the session built from `exStore`
has both fields nulled. -/
theorem C8_fresh_session_nulls_witness :
    (toSessionQuestion exQuestion).user_answer_index = none ∧
    (toSessionQuestion exQuestion).is_correct = none :=
  C8_fresh_session_nulls exStore id "s1" 5 "quiz1" none exSession
    (by decide) (toSessionQuestion exQuestion) (by decide)

/-- Finding by id commutes with updating the first id-match, provided the
update preserves the id. -/
theorem find?_updateFirstCard (card_id : String) (f : Card → Card)
    (hf : ∀ c : Card, (c.id == card_id) = true →
      ((f c).id == card_id) = true) (l : List Card) :
    (updateFirstCard card_id f l).find? (fun x => x.id == card_id) =
      (l.find? (fun x => x.id == card_id)).map f := by
  induction l with
  | nil => rfl
  | cons c cs ih =>
    unfold updateFirstCard
    by_cases h : (c.id == card_id) = true
    · rw [if_pos h,
        List.find?_cons_of_pos _ (p := fun x : Card => x.id == card_id)
          (hf c h),
        List.find?_cons_of_pos _ (p := fun x : Card => x.id == card_id) h]
      rfl
    · rw [if_neg h,
        List.find?_cons_of_neg _ (p := fun x : Card => x.id == card_id) h,
        List.find?_cons_of_neg _ (p := fun x : Card => x.id == card_id) h,
        ih]

/-- C9: `record_review` on an existing card sets `last_reviewed` to now,
increments `review_count` by exactly 1, and stores the input difficulty
clamped into `[0, 3]`. -/
theorem C9_record_review_updates (store : FlashStore) (now : Nat)
    (set_id card_id : String) (d : Int) (s : FlashcardSet) (c : Card)
    (hs : getSet store set_id = some s)
    (hc : s.cards.find? (fun x => x.id == card_id) = some c) :
    ((record_review store now set_id card_id d).2.bind
        (fun s' => s'.cards.find? (fun x => x.id == card_id))) =
      some (Card.mk c.id c.front c.back c.tags c.created_at (some now)
        (c.review_count + 1) (max 0 (min 3 d))) := by
  unfold record_review
  simp only [hs, Option.bind]
  rw [find?_updateFirstCard card_id
    (fun c => Card.mk c.id c.front c.back c.tags c.created_at (some now)
      (c.review_count + 1) (max 0 (min 3 d)))
    (fun x hx => hx) s.cards, hc]
  rfl

/-- A one-card flashcard set for the C9 witness: the card has been
reviewed twice and currently has difficulty 1. -/
def exCard1 : Card := Card.mk "c1" "f" "b" [] 0 none 2 1

def exFSet2 : FlashcardSet :=
  { id := "set2", title := "t2", description := "", created_at := 0,
    updated_at := 0, cards := [exCard1] }

def exFStore2 : FlashStore := [("set2", exFSet2)]

/-- C9 witness: input difficulty 7 is stored as 3 and input -2 as 0, with
`review_count` going from 2 to 3 and `last_reviewed` set to 9 in both
cases. -/
theorem C9_record_review_updates_witness :
    ((record_review exFStore2 9 "set2" "c1" 7).2.bind
        (fun s' => s'.cards.find? (fun x => x.id == "c1"))) =
      some (Card.mk "c1" "f" "b" [] 0 (some 9) 3 3) ∧
    ((record_review exFStore2 9 "set2" "c1" (-2)).2.bind
        (fun s' => s'.cards.find? (fun x => x.id == "c1"))) =
      some (Card.mk "c1" "f" "b" [] 0 (some 9) 3 0) := by
  constructor
  · exact (C9_record_review_updates exFStore2 9 "set2" "c1" 7 exFSet2
      exCard1 (by decide) (by decide)).trans (by decide)
  · exact (C9_record_review_updates exFStore2 9 "set2" "c1" (-2) exFSet2
      exCard1 (by decide) (by decide)).trans (by decide)

/-- C2: on the spec's own example — A never reviewed with difficulty 1,
B reviewed with difficulty 3, C reviewed with difficulty 0 —
`get_cards_to_review` returns [A, C, B], not the claimed [A, B, C]: the
sort key orders ascending difficulty (lowest first) among reviewed cards,
the opposite of the documented priority. -/
theorem C2_selector_order_evaluated :
    (get_cards_to_review exFStore "set1" 10).map Card.id = ["A", "C", "B"] ∧
    (["A", "C", "B"] : List String) ≠ ["A", "B", "C"] := by
  refine ⟨by decide, by decide⟩

end StudyAssistant
